import Mathlib

/-!
Verification development for the resume-builder extraction pipeline
(`src/backend/utils/ai_parser.py` and its caller `src/backend/main.py`).

The Python module delegates extraction to an external completion service
(OpenAI chat completion with a forced tool call), decodes the tool-call
arguments with `json.loads`, falls back to a canonical default structure on
a JSON decode error, and re-raises any other failure.  A streaming wrapper
emits an ordered list of progress events around that call.

Modelling conventions:
* JSON documents are the inductive `Json` below; `jsonLoads` is an
  executable model of Python's `json.loads` on the payloads relevant here
  (null/true/false, integer numerals, strings with the common one-character
  escapes, arrays, objects, ASCII whitespace).  Unicode `\u` escapes and
  float literals are not modelled: no claim depends on them, and a payload
  using them decodes to `none` (treated as a decode error).
* The completion service is external; one call is modelled as a function
  from the user-prompt string to a `ServiceResult`: either a tool call with
  an `arguments` string, or a raised transport/service error with a message.
  A response without a usable tool call raises while reading
  `response.choices[0].message.tool_calls[0]` and is covered by the
  `failure` case.  Because the streaming wrapper may in principle call the
  service several times, the service is passed to it as `Nat → String →
  ServiceResult`, indexed by call number; the embedded code performs the
  single call the source performs, at index 0.
* The randomness and wall-clock values drawn by `add_prompt_variation`
  (`time.time`, `random.choices`, `datetime.now`, `random.randint`) are
  gathered in a `CacheRand` record passed in explicitly.
* Wall-clock `timestamp` fields of emitted events are external-clock values
  that no claim constrains; events are modelled without them.
-/

/-- JSON values, as produced by Python's `json.loads` (numbers restricted to
integers, see the module comment). -/
inductive Json where
  | null : Json
  | bool (b : Bool) : Json
  | num (n : Int) : Json
  | str (s : String) : Json
  | arr (elems : List Json) : Json
  | obj (members : List (String × Json)) : Json

/-- Drop leading JSON whitespace (space, newline, tab, carriage return). -/
def skipWs : List Char → List Char
  | c :: cs =>
    if c = ' ' ∨ c = '\n' ∨ c = '\t' ∨ c = '\r' then skipWs cs else c :: cs
  | [] => []

/-- Decode the body of a JSON string after the opening quote; returns the
decoded characters and the input following the closing quote. -/
def parseStringBody : List Char → Option (List Char × List Char)
  | [] => none
  | '"' :: rest => some ([], rest)
  | '\\' :: e :: rest =>
    (match e with
      | '"' => some '"'
      | '\\' => some '\\'
      | '/' => some '/'
      | 'n' => some '\n'
      | 't' => some '\t'
      | 'r' => some '\r'
      | 'b' => some (Char.ofNat 8)
      | 'f' => some (Char.ofNat 12)
      | _ => none).bind
      (fun c =>
        (parseStringBody rest).map
          (fun p : List Char × List Char => (c :: p.1, p.2)))
  | c :: rest =>
    (parseStringBody rest).map
      (fun p : List Char × List Char => (c :: p.1, p.2))

/-- Split a maximal run of leading decimal digits from the input. -/
def takeDigits : List Char → List Char × List Char
  | c :: cs =>
    if c.isDigit then
      let p := takeDigits cs
      (c :: p.1, p.2)
    else ([], c :: cs)
  | [] => ([], [])

/-- Numeric value of a digit run. -/
def digitsVal (ds : List Char) : Nat :=
  ds.foldl (fun a c => a * 10 + (c.toNat - 48)) 0

/-- Decode a JSON integer numeral (optional minus sign, then digits). -/
def parseNumber (cs : List Char) : Option (Json × List Char) :=
  match cs with
  | '-' :: rest =>
    let p := takeDigits rest
    if p.1.isEmpty then none else some (.num (-(digitsVal p.1 : Int)), p.2)
  | _ =>
    let p := takeDigits cs
    if p.1.isEmpty then none else some (.num (digitsVal p.1 : Int), p.2)

/-- Fuel-indexed recursive-descent JSON decoder: at each fuel level, the
triple of (value decoder, array-element list decoder, object-member list
decoder), each defined from the previous level's decoders.  The list
decoders expect the input after the opening bracket (non-empty case) and
consume through the matching closing bracket. -/
def parseFns : Nat →
    ((List Char → Option (Json × List Char)) ×
     (List Char → Option (List Json × List Char)) ×
     (List Char → Option (List (String × Json) × List Char)))
  | 0 => (fun _ => none, fun _ => none, fun _ => none)
  | n + 1 =>
    let pv := (parseFns n).1
    let pe := (parseFns n).2.1
    let pm := (parseFns n).2.2
    ( fun cs =>
        match skipWs cs with
        | 'n' :: 'u' :: 'l' :: 'l' :: r => some (.null, r)
        | 't' :: 'r' :: 'u' :: 'e' :: r => some (.bool true, r)
        | 'f' :: 'a' :: 'l' :: 's' :: 'e' :: r => some (.bool false, r)
        | '"' :: r =>
          (parseStringBody r).map (fun p => (.str (String.mk p.1), p.2))
        | '[' :: r =>
          (match skipWs r with
            | ']' :: r2 => some (.arr [], r2)
            | r2 => (pe r2).map (fun p => (.arr p.1, p.2)))
        | '\x7b' :: r =>
          (match skipWs r with
            | '\x7d' :: r2 => some (.obj [], r2)
            | r2 => (pm r2).map (fun p => (.obj p.1, p.2)))
        | c :: r =>
          if c = '-' ∨ c.isDigit then parseNumber (c :: r) else none
        | [] => none,
      fun cs =>
        match pv cs with
        | some (v, r) =>
          (match skipWs r with
            | ',' :: r2 => (pe r2).map (fun p => (v :: p.1, p.2))
            | ']' :: r2 => some ([v], r2)
            | _ => none)
        | none => none,
      fun cs =>
        match skipWs cs with
        | '"' :: r =>
          (match parseStringBody r with
            | some (k, r2) =>
              (match skipWs r2 with
                | ':' :: r3 =>
                  (match pv r3 with
                    | some (v, r4) =>
                      (match skipWs r4 with
                        | ',' :: r5 =>
                          (pm r5).map
                            (fun p => ((String.mk k, v) :: p.1, p.2))
                        | '\x7d' :: r5 => some ([(String.mk k, v)], r5)
                        | _ => none)
                    | none => none)
                | _ => none)
            | none => none)
        | _ => none )

/-- Model of Python's `json.loads` (see the module comment): decode one JSON
document and require only trailing whitespace after it; any failure is a
`JSONDecodeError`, modelled as `none`.  The fuel bound `2 * length + 4`
exceeds the decoder's recursion depth on any input it accepts. -/
def jsonLoads (s : String) : Option Json :=
  match (parseFns (2 * s.data.length + 4)).1 s.data with
  | some (v, rest) => if (skipWs rest).isEmpty then some v else none
  | none => none

/-- `get_default_resume_structure` from `ai_parser.py`: the canonical default
resume structure, every field empty/blank. -/
def get_default_resume_structure : Json :=
  .obj
    [ ("name", .str ""),
      ("title", .str ""),
      ("requisitionNumber", .str ""),
      ("professionalSummary", .arr []),
      ("summarySections", .arr []),
      ("employmentHistory", .arr []),
      ("education", .arr []),
      ("certifications", .arr []),
      ("technicalSkills", .obj []),
      ("skillCategories", .arr []) ]

/-- The required top-level keys of the `parse_resume` schema
(`"required": ["name", "professionalSummary", "employmentHistory"]`). -/
def requiredResumeKeys : List String :=
  ["name", "professionalSummary", "employmentHistory"]

/-- Whether a JSON value is an object carrying every required top-level key
of the StructuredResume schema. -/
def hasRequiredKeys (j : Json) : Bool :=
  match j with
  | .obj members =>
    requiredResumeKeys.all (fun k => members.any (fun kv => kv.1 == k))
  | _ => false

/-- The keys of a JSON object (empty for non-objects). -/
def Json.objKeys : Json → List String
  | .obj members => members.map Prod.fst
  | _ => []

/-- One completion-service call, as seen by `extract_data_from_text`: either
the forced tool call's `arguments` string was obtained, or the call raised
(transport/service error, or a response without a usable tool call). -/
inductive ServiceResult where
  | success (arguments : String) : ServiceResult
  | failure (msg : String) : ServiceResult

/-- Outcome of `extract_data_from_text`: a returned dictionary, or a raised
`Exception` with its message. -/
inductive ExtractResult where
  | ok (data : Json) : ExtractResult
  | fatal (msg : String) : ExtractResult

/-- The ambient values drawn by `add_prompt_variation` in one call:
`int(time.time() * 1000)`, the 13-character `random.choices` suffix,
`datetime.now().isoformat()`, and `random.randint(100000, 999999)`. -/
structure CacheRand where
  timestamp : Int
  random_id : String
  now_iso : String
  bypass_id : Int

/-- The `session_id` built by `add_prompt_variation`:
`f"CACHE_BYPASS_{timestamp}_{random_id}"`. -/
def session_id (r : CacheRand) : String :=
  "CACHE_BYPASS_" ++ toString r.timestamp ++ "_" ++ r.random_id

/-- The `cache_breaker` preamble built by `add_prompt_variation`. -/
def cache_breaker (r : CacheRand) : String :=
  "[Processing Session: " ++ session_id r ++ "]\n[Analysis Timestamp: " ++
    r.now_iso ++ "]\n[Cache Bypass ID: " ++ toString r.bypass_id ++ "]\n\n"

/-- `add_prompt_variation` from `ai_parser.py`: prepend the cache-busting
preamble to the base prompt. -/
def add_prompt_variation (r : CacheRand) (base_prompt : String) : String :=
  cache_breaker r ++ base_prompt

/-- The user message `extract_data_from_text` sends to the completion
service: the cache-busting preamble followed by the fixed task framing and
the full raw resume text. -/
def user_prompt (r : CacheRand) (text : String) : String :=
  add_prompt_variation r
    ("CRITICAL TASK: Parse the following resume text and extract EVERY SINGLE DETAIL without omission.\n\nResume text:\n"
      ++ text)

/-- `extract_data_from_text` from `ai_parser.py`: issue one schema-forced
completion call on the user prompt; on success decode the tool-call
`arguments` with `json.loads`, returning the decoded value unchanged, or the
canonical default structure on a `JSONDecodeError`; any raised service error
is re-raised as `Exception(f"Failed to extract data: {error}")`. -/
def extract_data_from_text (call : String → ServiceResult) (r : CacheRand)
    (text : String) : ExtractResult :=
  match call (user_prompt r text) with
  | .failure msg => .fatal ("Failed to extract data: " ++ msg)
  | .success args =>
    match jsonLoads args with
    | some v => .ok v
    | none => .ok get_default_resume_structure

/-- One resume section: a heading and the body text under it. -/
structure Section where
  heading : String
  body : String

/-- Split a character list at newline characters. -/
def splitLinesAux : List Char → List Char → List (List Char)
  | [], acc => [acc.reverse]
  | '\n' :: rest, acc => acc.reverse :: splitLinesAux rest []
  | c :: rest, acc => splitLinesAux rest (c :: acc)

/-- The lines of a string (split at newline characters). -/
def splitLines (s : String) : List String :=
  (splitLinesAux s.data []).map String.mk

/-- Join lines with newline characters. -/
def joinLines : List String → String
  | [] => ""
  | [l] => l
  | l :: rest => l ++ "\n" ++ joinLines rest

/-- Close the section currently being accumulated (heading and body lines in
reverse order), if any. -/
def finishSection : Option (String × List String) → List Section
  | none => []
  | some (h, bodyLines) => [⟨h, joinLines bodyLines.reverse⟩]

/-- A line recognized as a bold-formatted heading (`**...**`): the heading
text it carries, else `none`. -/
def boldHeading (line : String) : Option String :=
  match line.data with
  | '*' :: '*' :: rest =>
    (match rest.reverse with
      | '*' :: '*' :: midrev => some (String.mk midrev.reverse)
      | _ => none)
  | _ => none

/-- Walk the lines, opening a new section at each bold heading and adding
every other line to the current section's body; lines before the first
heading are discarded. -/
def chunkAux : List String → Option (String × List String) → List Section
  | [], acc => finishSection acc
  | line :: rest, acc =>
    match boldHeading line with
    | some h => finishSection acc ++ chunkAux rest (some (h, []))
    | none =>
      match acc with
      | none => chunkAux rest none
      | some (h, ls) => chunkAux rest (some (h, line :: ls))

/-- Modelled from the spec: the repository imports
`chunk_resume_from_bold_headings` from `utils/chunk_resume.py`, a file not
among the provided sources; only its caller is.  Per §4.3 of the spec it
splits the raw text into an ordered sequence of sections at lines recognized
as bold-formatted headings, preserves order of appearance, does not
deduplicate headings, and degrades to a single section spanning the entire
text when no headings are detected; the policy for text preceding the first
heading is left open by the spec, and this model discards it. -/
def chunk_resume_from_bold_headings (text : String) : List Section :=
  let cs := chunkAux (splitLines text) none
  if cs.isEmpty then [⟨"", text⟩] else cs

/-- Token-usage metadata attached to the `full_resume_complete` event
(`{'promptTokens': 0, 'completionTokens': 0, 'totalTokens': 0, 'cost': 0}`
in the source). -/
structure TokenUsage where
  promptTokens : Nat
  completionTokens : Nat
  totalTokens : Nat
  cost : Nat
deriving DecidableEq

/-- One streamed progress event, with the fields the source attaches
(wall-clock `timestamp` fields omitted, see the module comment). -/
structure Event where
  type : String
  message : String
  progress : Option Nat
  data : Option Json
  tokenUsage : Option TokenUsage

/-- The first event of every run. -/
def progressEvent : Event :=
  ⟨"progress", "Analyzing resume structure...", some 10, none, none⟩

/-- The second event of every run, emitted after the chunker runs. -/
def strategyEvent : Event :=
  ⟨"processing_strategy", "Processing entire resume...", some 45, none, none⟩

/-- The event emitted when extraction returns, with zeroed token usage. -/
def fullResumeCompleteEvent : Event :=
  ⟨"full_resume_complete", "✅ Resume processed successfully", some 90, none,
    some ⟨0, 0, 0, 0⟩⟩

/-- The event carrying the extracted (or default) structure. -/
def finalDataEvent (d : Json) : Event :=
  ⟨"final_data", "Final resume data ready", some 98, some d, none⟩

/-- The terminal success event. -/
def completeEvent : Event :=
  ⟨"complete", "Resume processing completed successfully!", some 100, none,
    none⟩

/-- The terminal failure event; `msg` is the text of the exception raised by
`extract_data_from_text`. -/
def errorEvent (msg : String) : Event :=
  ⟨"error", "Processing failed: " ++ msg, none, none, none⟩

/-- `stream_resume_processing` from `ai_parser.py`, with the chunker and the
completion service passed in explicitly (`svc n` is the service's behavior
on the n-th call issued by this run; the source issues exactly one, call 0).
The chunker's result is only logged, so it is bound and discarded here. -/
def stream_resume_processing_with (chunker : String → List Section)
    (svc : Nat → String → ServiceResult) (r : CacheRand)
    (extracted_text : String) : List Event :=
  let _sections := chunker extracted_text
  progressEvent ::
    strategyEvent ::
      (match extract_data_from_text (svc 0) r extracted_text with
        | .fatal msg => [errorEvent msg]
        | .ok data =>
          [fullResumeCompleteEvent, finalDataEvent data, completeEvent])

/-- `stream_resume_processing` with the repository's chunker. -/
def stream_resume_processing (svc : Nat → String → ServiceResult)
    (r : CacheRand) (extracted_text : String) : List Event :=
  stream_resume_processing_with chunk_resume_from_bold_headings svc r
    extracted_text

/-- Whether an event is terminal (`complete` or `error`). -/
def isTerminal (e : Event) : Bool :=
  e.type == "complete" || e.type == "error"

/-- Whether an event is a valid terminal event: `error`, or `complete` with
progress 100. -/
def terminalOk (e : Event) : Bool :=
  e.type == "error" || (e.type == "complete" && e.progress == some 100)

/-- The progress values carried by a run's events, in emission order. -/
def progressValues (evs : List Event) : List Nat :=
  evs.filterMap Event.progress

/-- Whether a list of naturals is non-decreasing. -/
def nonDecreasing : List Nat → Bool
  | a :: b :: rest => decide (a ≤ b) && nonDecreasing (b :: rest)
  | _ => true

/-- Whether a run's last event exists and is a valid terminal event. -/
def lastTerminalOk (evs : List Event) : Bool :=
  match evs.getLast? with
  | some e => terminalOk e
  | none => false

/-- A concrete draw of the cache-busting randomness, for instantiations. -/
def r0 : CacheRand := ⟨0, "aaaaaaaaaaaaa", "2025-01-01T00:00:00", 100000⟩

/-- C9: on the input `"**Experience**\nJob A\n**Education**\nSchool B"`, the
chunker returns the ordered two-section sequence
`[⟨"Experience", "Job A"⟩, ⟨"Education", "School B"⟩]`, preserving order of
appearance. -/
theorem chunker_two_sections :
    chunk_resume_from_bold_headings
        "**Experience**\nJob A\n**Education**\nSchool B" =
      [⟨"Experience", "Job A"⟩, ⟨"Education", "School B"⟩] := rfl

/-- C10: when the tool-call arguments string decodes as JSON,
`extract_data_from_text` returns exactly the decoded value, unchanged — no
required-key check, no filling of missing fields, no type check. -/
theorem extract_returns_decoded_payload (call : String → ServiceResult)
    (r : CacheRand) (text : String) (args : String) (v : Json)
    (hc : call (user_prompt r text) = .success args)
    (hj : jsonLoads args = some v) :
    extract_data_from_text call r text = .ok v := by
  simp only [extract_data_from_text, hc, hj]

/-- C10 witness: a syntactically valid but schema-violating, non-object
payload (`"[1, 2]"`) is returned to the caller as-is. -/
theorem extract_returns_decoded_payload_witness :
    extract_data_from_text (fun _ => .success "[1, 2]") r0 "" =
      .ok (Json.arr [Json.num 1, Json.num 2]) :=
  extract_returns_decoded_payload (fun _ => .success "[1, 2]") r0 "" "[1, 2]"
    (Json.arr [Json.num 1, Json.num 2]) rfl rfl

/-- C2 counterexample: the completion-service payload `"{}"` (written with
escaped braces) is valid JSON that fails the StructuredResume shape (it has
no required key), yet `extract_data_from_text` returns it as-is rather than
the canonical default structure — refuting the claim that every
shape-mismatched payload yields the default. -/
theorem extract_malformed_fallback_counterexample :
    ¬ (∀ (call : String → ServiceResult) (r : CacheRand) (text args : String),
        call (user_prompt r text) = .success args →
        (∀ v, jsonLoads args = some v → hasRequiredKeys v = false) →
        extract_data_from_text call r text =
          .ok get_default_resume_structure) := by
  intro h
  have he : extract_data_from_text (fun _ => .success "\x7b\x7d") r0 "" =
      .ok (Json.obj []) := rfl
  have hd := h (fun _ => .success "\x7b\x7d") r0 "" "\x7b\x7d" rfl
    (by intro v hv
        have : Json.obj [] = v := by
          have hj : jsonLoads "\x7b\x7d" = some (Json.obj []) := rfl
          rw [hj] at hv
          exact Option.some.inj hv
        rw [← this]
        rfl)
  rw [he] at hd
  have hkeys := congrArg (fun j => j.objKeys.length) (ExtractResult.ok.inj hd)
  simp [Json.objKeys, get_default_resume_structure] at hkeys

/-- C2 amended: only a payload that fails JSON decoding (a
`json.JSONDecodeError`) triggers the non-fatal fallback to the canonical
default StructuredResume; a payload that decodes as JSON is returned as-is
even when it mismatches the schema structurally. -/
theorem extract_default_on_json_decode_error (call : String → ServiceResult)
    (r : CacheRand) (text : String) (args : String)
    (hc : call (user_prompt r text) = .success args)
    (hj : jsonLoads args = none) :
    extract_data_from_text call r text = .ok get_default_resume_structure := by
  simp only [extract_data_from_text, hc, hj]

/-- C2 amended witness: a non-JSON payload yields the default structure,
non-fatally. -/
theorem extract_default_on_json_decode_error_witness :
    extract_data_from_text (fun _ => .success "not json") r0 "garbage" =
      .ok get_default_resume_structure :=
  extract_default_on_json_decode_error (fun _ => .success "not json") r0
    "garbage" "not json" rfl rfl

/-- C1 counterexample: with a service response whose tool-call arguments are
`"{}"` (written with escaped braces), `extract_data_from_text` neither
raises nor returns an object with the required top-level keys: it returns
the empty object unchanged — refuting the claim that every non-raising
return carries all required keys. -/
theorem extract_shape_guarantee_counterexample :
    ¬ (∀ (call : String → ServiceResult) (r : CacheRand) (text : String),
        (∃ msg, extract_data_from_text call r text = .fatal msg) ∨
        (∃ v, extract_data_from_text call r text = .ok v ∧
          hasRequiredKeys v = true)) := by
  intro h
  have he : extract_data_from_text (fun _ => .success "\x7b\x7d") r0 "" =
      .ok (Json.obj []) := rfl
  rcases h (fun _ => .success "\x7b\x7d") r0 "" with ⟨msg, hm⟩ | ⟨v, hv, hk⟩
  · rw [he] at hm
    exact ExtractResult.noConfusion hm
  · rw [he] at hv
    rw [← ExtractResult.ok.inj hv] at hk
    exact absurd hk (by decide)

/-- C1 amended: `extract_data_from_text` either raises a fatal error, or
returns the canonical default structure (which carries all required
top-level keys), or returns the JSON-decoded tool-call arguments unchanged;
a returned object is guaranteed to carry the required keys only when it is
the default or the decoded payload itself carries them. -/
theorem extract_ok_default_or_decoded (call : String → ServiceResult)
    (r : CacheRand) (text : String) (v : Json)
    (h : extract_data_from_text call r text = .ok v) :
    (v = get_default_resume_structure ∧ hasRequiredKeys v = true) ∨
    (∃ args, call (user_prompt r text) = .success args ∧
      jsonLoads args = some v) := by
  unfold extract_data_from_text at h
  cases hc : call (user_prompt r text) with
  | failure msg =>
    rw [hc] at h
    exact ExtractResult.noConfusion h
  | success args =>
    rw [hc] at h
    dsimp only at h
    cases hj : jsonLoads args with
    | some w =>
      rw [hj] at h
      rw [← ExtractResult.ok.inj h]
      exact .inr ⟨args, rfl, hj⟩
    | none =>
      rw [hj] at h
      rw [← ExtractResult.ok.inj h]
      exact .inl ⟨rfl, by decide⟩

/-- C1 amended witness: a non-JSON payload lands in the default branch, and
the default carries all required keys. -/
theorem extract_ok_default_or_decoded_witness :
    (get_default_resume_structure = get_default_resume_structure ∧
      hasRequiredKeys get_default_resume_structure = true) ∨
    (∃ args,
      (fun _ : String => ServiceResult.success "oops") (user_prompt r0 "") =
        .success args ∧
      jsonLoads args = some get_default_resume_structure) :=
  extract_ok_default_or_decoded (fun _ => .success "oops") r0 ""
    get_default_resume_structure rfl

/-- C3: when the service call succeeds but its payload fails JSON decoding,
the streamed run still passes through `full_resume_complete` and
`final_data` and terminates in `complete` (never `error`), and the
`final_data` event's `data` field is the canonical default structure, which
carries every required key. -/
theorem stream_malformed_payload_completes (svc : Nat → String → ServiceResult)
    (r : CacheRand) (text : String) (args : String)
    (hc : svc 0 (user_prompt r text) = .success args)
    (hj : jsonLoads args = none) :
    stream_resume_processing svc r text =
      [progressEvent, strategyEvent, fullResumeCompleteEvent,
        finalDataEvent get_default_resume_structure, completeEvent] ∧
    (finalDataEvent get_default_resume_structure).data =
      some get_default_resume_structure ∧
    hasRequiredKeys get_default_resume_structure = true ∧
    (stream_resume_processing svc r text).all
      (fun e => e.type != "error") = true := by
  have hext : extract_data_from_text (svc 0) r text =
      .ok get_default_resume_structure := by
    simp only [extract_data_from_text, hc, hj]
  have hs : stream_resume_processing svc r text =
      [progressEvent, strategyEvent, fullResumeCompleteEvent,
        finalDataEvent get_default_resume_structure, completeEvent] := by
    unfold stream_resume_processing stream_resume_processing_with
    rw [hext]
  refine ⟨hs, rfl, by decide, ?_⟩
  rw [hs]
  decide

/-- C3 witness: a concrete run with a non-JSON payload. -/
theorem stream_malformed_payload_completes_witness :
    stream_resume_processing (fun _ _ => .success "not a json payload") r0
        "resume text" =
      [progressEvent, strategyEvent, fullResumeCompleteEvent,
        finalDataEvent get_default_resume_structure, completeEvent] :=
  (stream_malformed_payload_completes (fun _ _ => .success "not a json payload")
    r0 "resume text" "not a json payload" rfl rfl).1

/-- C4: when the completion-service call raises, the emitted sequence is
exactly `progress`(10), `processing_strategy`(45), `error`, with nothing
after the single `error` event; and the run is determined by the service's
behavior on its one call (call 0), so no retry is observable. -/
theorem stream_service_failure_single_error (svc : Nat → String → ServiceResult)
    (r : CacheRand) (text : String) (msg : String)
    (hc : svc 0 (user_prompt r text) = .failure msg) :
    stream_resume_processing svc r text =
      [progressEvent, strategyEvent,
        errorEvent ("Failed to extract data: " ++ msg)] ∧
    (∀ svc2 : Nat → String → ServiceResult, svc2 0 = svc 0 →
      stream_resume_processing svc2 r text =
        stream_resume_processing svc r text) := by
  constructor
  · have hext : extract_data_from_text (svc 0) r text =
        .fatal ("Failed to extract data: " ++ msg) := by
      simp only [extract_data_from_text, hc]
    unfold stream_resume_processing stream_resume_processing_with
    rw [hext]
  · intro svc2 h0
    unfold stream_resume_processing stream_resume_processing_with
      extract_data_from_text
    rw [h0]

/-- C4 witness: a concrete run with a raising service call. -/
theorem stream_service_failure_single_error_witness :
    stream_resume_processing (fun _ _ => .failure "connection reset") r0
        "resume text" =
      [progressEvent, strategyEvent,
        errorEvent ("Failed to extract data: " ++ "connection reset")] :=
  (stream_service_failure_single_error (fun _ _ => .failure "connection reset")
    r0 "resume text" "connection reset" rfl).1

/-- C5: in every run of the streaming pipeline — success, malformed-payload
fallback, or service failure — the progress values carried by the emitted
events are non-decreasing in emission order, exactly one emitted event is
terminal, and the run's last event is that terminal event: either
`complete` with progress 100 or `error`. -/
theorem stream_progress_monotone_single_terminal
    (svc : Nat → String → ServiceResult) (r : CacheRand) (text : String) :
    nonDecreasing (progressValues (stream_resume_processing svc r text)) =
      true ∧
    (stream_resume_processing svc r text).countP isTerminal = 1 ∧
    lastTerminalOk (stream_resume_processing svc r text) = true := by
  unfold stream_resume_processing stream_resume_processing_with
  cases extract_data_from_text (svc 0) r text with
  | fatal msg =>
    refine ⟨?_, ?_, ?_⟩ <;>
      simp [progressValues, nonDecreasing, isTerminal, terminalOk,
        lastTerminalOk, progressEvent, strategyEvent, errorEvent,
        List.countP, List.countP.go]
  | ok data =>
    refine ⟨?_, ?_, ?_⟩ <;>
      simp [progressValues, nonDecreasing, isTerminal, terminalOk,
        lastTerminalOk, progressEvent, strategyEvent, fullResumeCompleteEvent,
        finalDataEvent, completeEvent, List.countP, List.countP.go]

/-- C6 counterexample: in a concrete successful run, the first emitted
event's message is `"Analyzing resume structure..."`, not the claimed
`"analyzing resume structure"`. -/
theorem stream_first_message_counterexample :
    ((stream_resume_processing (fun _ _ => .success "oops payload") r0
        "resume").head?).map Event.message ≠
      some "analyzing resume structure" := by
  decide

/-- C6 amended: in every run in which extraction succeeds (including the
default-fallback case), the streamer emits exactly five events in order:
`progress` with message `"Analyzing resume structure..."` and progress 10,
`processing_strategy` with progress 45, `full_resume_complete` with
progress 90 and zeroed token-usage metadata, `final_data` with progress 98
carrying the full extracted structure, and `complete` with progress 100. -/
theorem stream_success_five_events (svc : Nat → String → ServiceResult)
    (r : CacheRand) (text : String) (data : Json)
    (h : extract_data_from_text (svc 0) r text = .ok data) :
    stream_resume_processing svc r text =
      [progressEvent, strategyEvent, fullResumeCompleteEvent,
        finalDataEvent data, completeEvent] ∧
    progressEvent.type = "progress" ∧
    progressEvent.message = "Analyzing resume structure..." ∧
    progressEvent.progress = some 10 ∧
    strategyEvent.type = "processing_strategy" ∧
    strategyEvent.progress = some 45 ∧
    fullResumeCompleteEvent.type = "full_resume_complete" ∧
    fullResumeCompleteEvent.progress = some 90 ∧
    fullResumeCompleteEvent.tokenUsage = some ⟨0, 0, 0, 0⟩ ∧
    (finalDataEvent data).type = "final_data" ∧
    (finalDataEvent data).progress = some 98 ∧
    (finalDataEvent data).data = some data ∧
    completeEvent.type = "complete" ∧
    completeEvent.progress = some 100 := by
  refine ⟨?_, rfl, rfl, rfl, rfl, rfl, rfl, rfl, rfl, rfl, rfl, rfl, rfl, rfl⟩
  unfold stream_resume_processing stream_resume_processing_with
  rw [h]

/-- C6 amended witness: a concrete successful run (default-fallback case)
emits exactly the five events. -/
theorem stream_success_five_events_witness :
    stream_resume_processing (fun _ _ => .success "\x7b\x7d") r0 "cv" =
      [progressEvent, strategyEvent, fullResumeCompleteEvent,
        finalDataEvent (Json.obj []), completeEvent] :=
  (stream_success_five_events (fun _ _ => .success "\x7b\x7d") r0 "cv"
    (Json.obj []) rfl).1

/-- C7 counterexample: nothing in `add_prompt_variation` forces two calls
apart — when the drawn millisecond timestamps coincide and the randomness
source returns the same draws, the two preambles and their session
identifiers are identical, refuting "never identical". -/
theorem cache_buster_uniqueness_counterexample :
    ¬ (∀ (r r2 : CacheRand) (base : String), r.timestamp = r2.timestamp →
        add_prompt_variation r base ≠ add_prompt_variation r2 base ∧
        session_id r ≠ session_id r2) := by
  intro h
  exact (h r0 r0 "base prompt" rfl).1 rfl

/-- C7 amended: two calls with equal millisecond timestamps produce
distinct session identifiers whenever their 13-character random suffixes
differ; with identical random draws the outputs are identical, so
distinctness holds exactly as far as the randomness differs. -/
theorem session_id_distinct_of_suffix_distinct (r r2 : CacheRand)
    (ht : r.timestamp = r2.timestamp) (hr : r.random_id ≠ r2.random_id) :
    session_id r ≠ session_id r2 := by
  unfold session_id
  rw [ht]
  intro h
  apply hr
  apply String.ext
  have hd := congrArg String.data h
  simp only [String.data_append] at hd
  exact List.append_cancel_left hd

/-- C7 amended witness: two concrete draws with the same millisecond
timestamp and different random suffixes yield different session ids. -/
theorem session_id_distinct_of_suffix_distinct_witness :
    session_id ⟨1700000000000, "aaaaaaaaaaaaa", "t1", 100001⟩ ≠
      session_id ⟨1700000000000, "baaaaaaaaaaaa", "t2", 100002⟩ :=
  session_id_distinct_of_suffix_distinct
    ⟨1700000000000, "aaaaaaaaaaaaa", "t1", 100001⟩
    ⟨1700000000000, "baaaaaaaaaaaa", "t2", 100002⟩ rfl (by decide)

/-- C8: the chunker's output does not affect the run: two runs with
arbitrary, different chunkers and services that answer the one extraction
call — made on the user prompt built from the full raw text — identically,
emit identical event sequences; and the `processing_strategy` event
(progress 45) follows the chunker as the second event, with content
independent of the chunker's result. -/
theorem chunker_output_advisory (c c2 : String → List Section)
    (svc svc2 : Nat → String → ServiceResult) (r : CacheRand) (text : String)
    (h : svc 0 (user_prompt r text) = svc2 0 (user_prompt r text)) :
    stream_resume_processing_with c svc r text =
      stream_resume_processing_with c2 svc2 r text ∧
    (stream_resume_processing_with c svc r text).get? 1 =
      some strategyEvent ∧
    strategyEvent.progress = some 45 := by
  refine ⟨?_, rfl, rfl⟩
  unfold stream_resume_processing_with extract_data_from_text
  rw [h]

/-- C8 witness: a run with a trivial chunker and a run with the
repository's chunker, on the same service behavior, coincide. -/
theorem chunker_output_advisory_witness :
    stream_resume_processing_with (fun _ => []) (fun _ _ => .failure "down")
        r0 "cv text" =
      stream_resume_processing_with chunk_resume_from_bold_headings
        (fun _ _ => .failure "down") r0 "cv text" :=
  (chunker_output_advisory (fun _ => []) chunk_resume_from_bold_headings
    (fun _ _ => .failure "down") (fun _ _ => .failure "down") r0 "cv text"
    rfl).1
